import Mathlib

/-
Verification of the GADMA genetic-algorithm core against its specification.

The development shallowly embeds the Python sources:
  gadma/genetic_algorithm.py  (class GA: __init__, mean_time, best_model,
                               best_fitness_value, is_stoped, run_one_iteration, run)
  gadma/core.py               (run_genetic_algorithm, print_best_solution_now, main)
together with the parts of the demographic-model class that the tests exercise.

Machine conventions used throughout:
  * fitness values and elapsed times are rationals (Python floats are rationals);
  * a candidate model is reduced to the data the core inspects: its cached
    fitness value (`get_fitness_func_value`);
  * Python `None` is `Option.none`; a raised exception is an `Except.error`
    or an `Option String` error component;
  * object identity and `copy.deepcopy` are modelled with an explicit heap
    (a list of model values indexed by addresses) where aliasing matters.
-/

/-- A candidate demographic model, reduced to the only datum the GA core and the
coordinator read from it: the cached fitness value returned by
`get_fitness_func_value` (lower is better; minimization convention). -/
structure Model where
  fitness : ℚ
deriving DecidableEq, Repr

/-- The mutable state of one `GA` object, as set up by `GA.__init__`
(genetic_algorithm.py lines 61-65) and updated by `run_one_iteration` and `run`.
`model` and `best` are `Option Model` because `__init__` sets both attributes to
`None`; `log` records the iteration index written by each `run_one_iteration`
log line (genetic_algorithm.py line 116). -/
structure GAState where
  cur_iteration : ℕ
  first_iteration : ℕ
  work_time : ℚ
  model : Option Model
  best : Option Model
  log : List ℕ
deriving DecidableEq, Repr

/-- Fitness of an optional model. Inside `run`'s loop both `best` and `model`
are always set before their fitness is compared (proved below as
`loopState_best_isSome`), so the `none` branch — which in Python would raise an
`AttributeError` — is unreachable there. -/
def getFit : Option Model → ℚ
  | some m => m.fitness
  | none => 0

/-- The state produced by `GA.__init__` (genetic_algorithm.py lines 61-65):
counters and `work_time` zero, `self.model = None`, `self.best_model = None`,
nothing logged yet. -/
def initState : GAState :=
  { cur_iteration := 0, first_iteration := 0, work_time := 0,
    model := none, best := none, log := [] }

/-- `GA.run_one_iteration` (genetic_algorithm.py lines 103-116): a new candidate
`newModel` is produced (`get_random_model`, external randomness, here a
parameter), stored into `self.model`, the elapsed wall time is accumulated into
`self.work_time`, and a log line carrying `self.cur_iteration` is written. -/
def run_one_iteration (s : GAState) (newModel : Model) (elapsed : ℚ) : GAState :=
  { s with model := some newModel,
           work_time := s.work_time + elapsed,
           log := s.log ++ [s.cur_iteration] }

/-- The prelude of `GA.run` (genetic_algorithm.py lines 139-147): run the first
iteration, set `self.best_model = copy.deepcopy(self.model)` (a value copy),
and increment `self.cur_iteration` once, before the main loop. The candidate
stream `f` and the per-iteration elapsed times `t` are parameters. -/
def afterFirst (f : ℕ → Model) (t : ℕ → ℚ) : GAState :=
  let s1 := run_one_iteration initState (f 0) (t 0)
  let s2 := { s1 with best := s1.model }
  { s2 with cur_iteration := s2.cur_iteration + 1 }

/-- The body of `GA.run`'s main loop (genetic_algorithm.py lines 150-156):
run one iteration, then replace `self.best_model` by a copy of `self.model`
exactly when `self.best_model.get_fitness_func_value() >
self.model.get_fitness_func_value()` (strict comparison). -/
def loopBody (s : GAState) (newModel : Model) (elapsed : ℚ) : GAState :=
  let s1 := run_one_iteration s newModel elapsed
  if getFit s1.best > getFit s1.model then { s1 with best := s1.model } else s1

/-- The state of `GA.run` after the prelude and `k` executions of the main
loop's body, on candidate stream `f` and elapsed-time stream `t`. -/
def loopState (f : ℕ → Model) (t : ℕ → ℚ) : ℕ → GAState
  | 0 => afterFirst f t
  | k + 1 => loopBody (loopState f t k) (f (k + 1)) (t (k + 1))

/-- `GA.is_stoped` (genetic_algorithm.py lines 99-101): the stop check is the
constant `False`. -/
def is_stoped (_s : GAState) : Bool := false

/-- The guard of `GA.run`'s main loop as written at genetic_algorithm.py
line 149: the literal `True`. `is_stoped` does not occur in `run`. -/
def loopGuard (_s : GAState) : Bool := true

/-- Fuel-indexed evaluation of `GA.run`'s main loop (genetic_algorithm.py lines
149-158) from loop-iteration index `i` and state `s`: while the guard holds the
body runs again; were the guard ever false, the trailing
`return self.best_model` (line 158) would yield the `best` attribute. `none`
means the loop is still running when the fuel runs out. -/
def runFromLoop (f : ℕ → Model) (t : ℕ → ℚ) : ℕ → ℕ → GAState → Option Model
  | 0, _, _ => none
  | fuel + 1, i, s =>
    if loopGuard s then runFromLoop f t fuel (i + 1) (loopBody s (f i) (t i))
    else s.best

/-- `GA.run` (genetic_algorithm.py lines 119-158) evaluated with `fuel` steps
available for the main loop: the prelude runs, then the loop. -/
def gaRun (f : ℕ → Model) (t : ℕ → ℚ) (fuel : ℕ) : Option Model :=
  runFromLoop f t fuel 1 (afterFirst f t)

/-- `GA.mean_time` (genetic_algorithm.py lines 87-89):
`self.work_time / (self.cur_iteration + 1 - self.first_iteration)`. The source
has no guard; Python raises `ZeroDivisionError` exactly when the divisor is
zero, which the embedding makes explicit as the `Except.error` branch. -/
def mean_time (s : GAState) : Except String ℚ :=
  let d : ℤ := (s.cur_iteration : ℤ) + 1 - (s.first_iteration : ℤ)
  if d = 0 then Except.error "ZeroDivisionError"
  else Except.ok (s.work_time / (d : ℚ))

/-- Calling `ga.best_model()` / evaluating `self.best_model()`. `GA.__init__`
(line 65) assigns the instance attribute `self.best_model = None` and `GA.run`
(line 140) reassigns it to a model object, so Python attribute lookup always
finds the instance attribute and the class-level method `GA.best_model`
(lines 91-93) is shadowed and unreachable. Neither `None` nor a model instance
is callable (modelled from the spec: a candidate is a data object, §3 "Candidate
model"), so the call raises `TypeError` in either case. -/
def call_best_model (s : GAState) : Except String Model :=
  match s.best with
  | none => Except.error "TypeError"
  | some _ => Except.error "TypeError"

/-- `GA.best_fitness_value` (genetic_algorithm.py lines 95-97):
`return self.best_model().get_fitness_func_value()` — the call's exception, if
any, propagates. -/
def best_fitness_value (s : GAState) : Except String ℚ :=
  match call_best_model s with
  | Except.error e => Except.error e
  | Except.ok m => Except.ok m.fitness

/-- The final expression of `run_genetic_algorithm` (core.py line 206):
`return number, ga_instance.best_model()`. -/
def run_genetic_algorithm_result (number : ℕ) (s : GAState) :
    Except String (ℕ × Model) :=
  match call_best_model s with
  | Except.error e => Except.error e
  | Except.ok m => Except.ok (number, m)

/- Basic facts about the loop states. -/

theorem loopBody_best (s : GAState) (m : Model) (dt : ℚ) :
    (loopBody s m dt).best =
      if getFit s.best > m.fitness then some m else s.best := by
  simp only [loopBody, run_one_iteration, getFit]
  split <;> rfl

theorem loopBody_cur (s : GAState) (m : Model) (dt : ℚ) :
    (loopBody s m dt).cur_iteration = s.cur_iteration := by
  simp only [loopBody, run_one_iteration]
  split <;> rfl

theorem loopBody_first (s : GAState) (m : Model) (dt : ℚ) :
    (loopBody s m dt).first_iteration = s.first_iteration := by
  simp only [loopBody, run_one_iteration]
  split <;> rfl

theorem loopBody_log (s : GAState) (m : Model) (dt : ℚ) :
    (loopBody s m dt).log = s.log ++ [s.cur_iteration] := by
  simp only [loopBody, run_one_iteration]
  split <;> rfl

theorem loopState_cur (f : ℕ → Model) (t : ℕ → ℚ) (k : ℕ) :
    (loopState f t k).cur_iteration = 1 := by
  induction k with
  | zero => rfl
  | succ k ih => rw [loopState, loopBody_cur, ih]

theorem loopState_first (f : ℕ → Model) (t : ℕ → ℚ) (k : ℕ) :
    (loopState f t k).first_iteration = 0 := by
  induction k with
  | zero => rfl
  | succ k ih => rw [loopState, loopBody_first, ih]

theorem loopState_log (f : ℕ → Model) (t : ℕ → ℚ) (k : ℕ) :
    (loopState f t k).log = 0 :: List.replicate k 1 := by
  induction k with
  | zero => rfl
  | succ k ih =>
    rw [loopState, loopBody_log, ih, loopState_cur,
      List.replicate_succ' (n := k) (a := (1 : ℕ))]
    rfl

theorem loopState_best_isSome (f : ℕ → Model) (t : ℕ → ℚ) (k : ℕ) :
    ∃ m, (loopState f t k).best = some m := by
  induction k with
  | zero => exact ⟨f 0, rfl⟩
  | succ k ih =>
    obtain ⟨m, hm⟩ := ih
    rw [loopState, loopBody_best]
    by_cases h : getFit (loopState f t k).best > (f (k + 1)).fitness
    · exact ⟨f (k + 1), by rw [if_pos h]⟩
    · exact ⟨m, by rw [if_neg h, hm]⟩

theorem loopState_best_antitone_step (f : ℕ → Model) (t : ℕ → ℚ) (k : ℕ) :
    getFit (loopState f t (k + 1)).best ≤ getFit (loopState f t k).best := by
  rw [loopState, loopBody_best]
  by_cases h : getFit (loopState f t k).best > (f (k + 1)).fitness
  · rw [if_pos h]; exact le_of_lt h
  · rw [if_neg h]

theorem loopState_best_antitone (f : ℕ → Model) (t : ℕ → ℚ) {i j : ℕ}
    (h : i ≤ j) :
    getFit (loopState f t j).best ≤ getFit (loopState f t i).best := by
  induction j with
  | zero => rw [Nat.le_zero.mp h]
  | succ j ih =>
    rcases Nat.lt_or_ge i (j + 1) with hij | hij
    · exact le_trans (loopState_best_antitone_step f t j)
        (ih (Nat.lt_succ_iff.mp hij))
    · rw [Nat.le_antisymm h hij]

/- Claim C1: strict-improvement updates and monotonicity of the best candidate. -/

/-- C1: in `GA.run`'s loop the best candidate is replaced only when the new
candidate's fitness is strictly lower than the current best's (a tie never
replaces the incumbent), and across iteration indices `i ≤ j` the best fitness
is non-increasing (minimization convention). -/
theorem c1_best_strict_update_and_monotone (f : ℕ → Model) (t : ℕ → ℚ)
    (i j : ℕ) (hij : i ≤ j) :
    ((loopState f t (i + 1)).best ≠ (loopState f t i).best →
      (f (i + 1)).fitness < getFit (loopState f t i).best)
    ∧ ((f (i + 1)).fitness = getFit (loopState f t i).best →
      (loopState f t (i + 1)).best = (loopState f t i).best)
    ∧ getFit (loopState f t j).best ≤ getFit (loopState f t i).best := by
  refine ⟨?_, ?_, loopState_best_antitone f t hij⟩
  · intro hne
    by_contra hnlt
    apply hne
    rw [loopState, loopBody_best, if_neg]
    intro hgt
    exact hnlt hgt
  · intro htie
    rw [loopState, loopBody_best, if_neg]
    rw [htie]
    exact lt_irrefl _

/-- Concrete candidate stream used by witnesses: fitness 5, then 5 (a tie),
then 3 (a strict improvement). -/
def witnessStream : ℕ → Model
  | 0 => ⟨5⟩
  | 1 => ⟨5⟩
  | _ => ⟨3⟩

/-- Concrete elapsed-time stream used by witnesses. -/
def witnessTimes : ℕ → ℚ := fun _ => 1

/-- Witness for C1 at the concrete streams: two loop iterations (a tie then an
improvement) leave the best fitness no worse than at the start. -/
theorem c1_best_strict_update_and_monotone_witness :
    getFit (loopState witnessStream witnessTimes 2).best ≤
      getFit (loopState witnessStream witnessTimes 0).best :=
  (c1_best_strict_update_and_monotone witnessStream witnessTimes 0 2
    (by decide)).2.2

/- Claim C3: the run loop never consults `is_stoped` and never returns. -/

/-- C3 (code evaluated at the failing scenario): `GA.is_stoped` is the constant
`False`, the guard of `run`'s loop is the literal `True`, and the loop never
terminates — for every fuel bound, every loop index and every state, the loop
is still running, so `run` never reaches its trailing
`return self.best_model` (genetic_algorithm.py line 158) and never returns the
best candidate; `is_stoped` is never evaluated by the loop. -/
theorem c3_run_never_checks_stop_never_returns (f : ℕ → Model) (t : ℕ → ℚ)
    (fuel i : ℕ) (s : GAState) :
    runFromLoop f t fuel i s = none
    ∧ gaRun f t fuel = none
    ∧ is_stoped s = false
    ∧ loopGuard s = true := by
  have hloop : ∀ fuel i s, runFromLoop f t fuel i s = none := by
    intro fuel
    induction fuel with
    | zero => intro i s; rfl
    | succ fuel ih =>
      intro i s
      rw [runFromLoop, if_pos (show loopGuard s = true from rfl)]
      exact ih _ _
  exact ⟨hloop fuel i s, hloop fuel 1 (afterFirst f t), rfl, rfl⟩

/- Claim C4: mean_time and its division by zero. -/

/-- C4: `GA.mean_time` returns `work_time / (cur_iteration + 1 -
first_iteration)`; when the denominator is zero it fails explicitly with
`ZeroDivisionError` rather than silently dividing; and in every state the
running `GA.run` can produce (`first_iteration` stays 0, as nothing in the
source ever restores it), the denominator is `cur_iteration + 1 ≥ 1`, so the
call succeeds — in particular before any iteration has completed. -/
theorem c4_mean_time_division_guard (s : GAState) :
    (((s.cur_iteration : ℤ) + 1 - (s.first_iteration : ℤ)) = 0 →
      mean_time s = Except.error "ZeroDivisionError")
    ∧ (((s.cur_iteration : ℤ) + 1 - (s.first_iteration : ℤ)) ≠ 0 →
      mean_time s = Except.ok
        (s.work_time /
          ((((s.cur_iteration : ℤ) + 1 - (s.first_iteration : ℤ)) : ℤ) : ℚ)))
    ∧ (s.first_iteration = 0 →
      mean_time s = Except.ok (s.work_time / ((s.cur_iteration : ℚ) + 1))) := by
  refine ⟨fun h => ?_, fun h => ?_, fun h => ?_⟩
  · rw [mean_time]
    simp [h]
  · rw [mean_time]
    simp only [if_neg h]
  · have hd : ((s.cur_iteration : ℤ) + 1 - (s.first_iteration : ℤ)) ≠ 0 := by
      rw [h]
      push_cast
      omega
    rw [mean_time]
    simp only [if_neg hd]
    congr 1
    rw [h]
    push_cast
    ring

/-- Witness for C4 at a concrete state: in `initState` (no iteration completed,
denominator 1) the call succeeds with value 0; the hypotheses of
`c4_mean_time_division_guard` are discharged at `initState` and at a state with
`first_iteration = cur_iteration + 1` where the call raises. -/
theorem c4_mean_time_division_guard_witness :
    mean_time initState = Except.ok ((0 : ℚ) / ((0 : ℚ) + 1))
    ∧ mean_time { initState with first_iteration := 1 } =
        Except.error "ZeroDivisionError" :=
  ⟨(c4_mean_time_division_guard initState).2.2 rfl,
   (c4_mean_time_division_guard { initState with first_iteration := 1 }).1
     (by decide)⟩

/- Claim C9: the iteration counter is stuck at 1. -/

/-- C9: during `GA.run`, `cur_iteration` is 0 after `__init__`, is incremented
exactly once — after the first iteration, before the main loop — and never
inside the loop, so it stays 1 in every loop state; hence every log line
written by `run_one_iteration` after the first carries index 1 (the log reads
`0 :: replicate k 1` after `k` loop iterations), and `mean_time`'s denominator
stays fixed at 2 no matter how many iterations have completed. -/
theorem c9_cur_iteration_stuck_at_one (f : ℕ → Model) (t : ℕ → ℚ) (k : ℕ) :
    initState.cur_iteration = 0
    ∧ (loopState f t k).cur_iteration = 1
    ∧ (loopState f t k).log = 0 :: List.replicate k 1
    ∧ ((loopState f t k).cur_iteration : ℤ) + 1 -
        ((loopState f t k).first_iteration : ℤ) = 2
    ∧ mean_time (loopState f t k) =
        Except.ok ((loopState f t k).work_time / 2) := by
  have hc := loopState_cur f t k
  have hf := loopState_first f t k
  refine ⟨rfl, hc, loopState_log f t k, by rw [hc, hf]; rfl, ?_⟩
  rw [mean_time]
  simp only [hc, hf]
  norm_num

/- Claim C10: the best_model attribute shadows the method. -/

/-- C10: in every state from the end of `GA.run`'s first iteration on, the
instance attribute `best_model` holds a (non-callable) model object, shadowing
the class method `GA.best_model`; every call `ga.best_model()` and
`ga.best_fitness_value()` raises `TypeError`, and the final expression of
`run_genetic_algorithm` (core.py line 206), `ga_instance.best_model()`, can
never evaluate successfully. -/
theorem c10_best_model_shadowed (f : ℕ → Model) (t : ℕ → ℚ) (k number : ℕ) :
    (∃ m, (loopState f t k).best = some m)
    ∧ call_best_model (loopState f t k) = Except.error "TypeError"
    ∧ best_fitness_value (loopState f t k) = Except.error "TypeError"
    ∧ run_genetic_algorithm_result number (loopState f t k) =
        Except.error "TypeError" := by
  obtain ⟨m, hm⟩ := loopState_best_isSome f t k
  refine ⟨⟨m, hm⟩, ?_, ?_, ?_⟩ <;>
    simp [call_best_model, best_fitness_value, run_genetic_algorithm_result, hm]

/- Claim C2: deep-copy isolation of the published best candidate.
   Object identity is modelled with an explicit heap: a list of model values
   indexed by addresses; `copy.deepcopy` copies the value into a fresh cell. -/

/-- A heap of Python objects: model values addressed by their index. -/
abbrev Heap := List Model

/-- Allocate a fresh object holding value `m`; returns the new heap and the
fresh address. -/
def alloc (h : Heap) (m : Model) : Heap × ℕ := (h ++ [m], h.length)

/-- `copy.deepcopy` of the object at address `a`: the value is copied into a
fresh cell sharing no state with the original. A dangling address cannot occur
in `run` (the arguments are attributes previously assigned). -/
def deepcopy (h : Heap) (a : ℕ) : Heap × ℕ :=
  match h[a]? with
  | some m => alloc h m
  | none => (h, a)

/-- The reference state of one worker running `GA.run` with a shared registry:
the heap, the addresses held by `self.model` and `self.best_model`, and the
shared registry mapping worker keys to addresses. -/
structure WorkerState where
  heap : Heap
  modelAddr : ℕ
  bestAddr : ℕ
  registry : List (String × ℕ)
deriving DecidableEq, Repr

/-- Store under key `k` in the shared registry (`shared_dict[prefix] = ...`). -/
def regSet (reg : List (String × ℕ)) (k : String) (a : ℕ) : List (String × ℕ) :=
  (k, a) :: reg.filter (fun p => p.1 != k)

/-- Look up key `k` in the shared registry. -/
def regGet (reg : List (String × ℕ)) (k : String) : Option ℕ :=
  (reg.find? (fun p => p.1 == k)).map Prod.snd

/-- The update-and-publish step of `GA.run`'s loop (genetic_algorithm.py lines
151-156) at the object level: when the current best's fitness is strictly
greater than the new candidate's, `self.best_model = copy.deepcopy(self.model)`
and then `shared_dict[self.prefix] = copy.deepcopy(self.best_model)`; otherwise
nothing changes. -/
def publish_if_improved (w : WorkerState) (pfx : String) : WorkerState :=
  match w.heap[w.bestAddr]?, w.heap[w.modelAddr]? with
  | some b, some m =>
    if b.fitness > m.fitness then
      let db := deepcopy w.heap w.modelAddr
      let dr := deepcopy db.1 db.2
      { heap := dr.1, modelAddr := w.modelAddr, bestAddr := db.2,
        registry := regSet w.registry pfx dr.2 }
    else w
  | _, _ => w

theorem regGet_regSet (reg : List (String × ℕ)) (k : String) (a : ℕ) :
    regGet (regSet reg k a) k = some a := by
  simp [regGet, regSet, List.find?_cons]

/-- C2: when an iteration of `GA.run` (given a shared registry) updates the
best candidate, the registry entry under this run's key points to a deep copy
of the new best candidate: equal by value, at a different address, and mutating
the published object afterward leaves the engine's best candidate unchanged. -/
theorem c2_publish_deepcopy_isolation (w : WorkerState) (pfx : String)
    (b m : Model) (hb : w.heap[w.bestAddr]? = some b)
    (hm : w.heap[w.modelAddr]? = some m) (himp : b.fitness > m.fitness) :
    ∃ r, regGet (publish_if_improved w pfx).registry pfx = some r
      ∧ (publish_if_improved w pfx).heap[r]? =
          (publish_if_improved w pfx).heap[(publish_if_improved w pfx).bestAddr]?
      ∧ (publish_if_improved w pfx).heap[(publish_if_improved w pfx).bestAddr]?
          = some m
      ∧ r ≠ (publish_if_improved w pfx).bestAddr
      ∧ ∀ m2 : Model,
          ((publish_if_improved w pfx).heap.set r
              m2)[(publish_if_improved w pfx).bestAddr]? = some m := by
  have hcat : (w.heap ++ [m])[w.heap.length]? = some m :=
    List.getElem?_concat_length ..
  have hpub : publish_if_improved w pfx =
      { heap := (w.heap ++ [m]) ++ [m], modelAddr := w.modelAddr,
        bestAddr := w.heap.length,
        registry := regSet w.registry pfx (w.heap ++ [m]).length } := by
    simp only [publish_if_improved, hb, hm, if_pos himp, deepcopy, hcat, alloc]
  have hbestLt : w.heap.length < (w.heap ++ [m]).length := by
    simp [List.length_append]
  have hbestGet : ((w.heap ++ [m]) ++ [m])[w.heap.length]? = some m := by
    rw [List.getElem?_append, if_pos hbestLt, hcat]
  have hne : (w.heap ++ [m]).length ≠ w.heap.length := by
    simp [List.length_append]
  refine ⟨(w.heap ++ [m]).length, ?_, ?_, ?_, ?_, ?_⟩
  · rw [hpub]
    exact regGet_regSet ..
  · rw [hpub]
    show ((w.heap ++ [m]) ++ [m])[(w.heap ++ [m]).length]? = _
    rw [List.getElem?_concat_length, hbestGet]
  · rw [hpub]
    exact hbestGet
  · rw [hpub]
    exact hne
  · intro m2
    rw [hpub]
    show (((w.heap ++ [m]) ++ [m]).set (w.heap ++ [m]).length
        m2)[w.heap.length]? = some m
    rw [List.getElem?_set_ne hne, hbestGet]

/-- Concrete worker state for the C2 witness: best at address 0 with fitness 5,
new candidate at address 1 with fitness 3, empty registry. -/
def w0c2 : WorkerState :=
  { heap := [⟨5⟩, ⟨3⟩], modelAddr := 1, bestAddr := 0, registry := [] }

/-- Witness for C2: the publish step on the concrete worker state, with the
improvement hypothesis discharged (5 > 3). -/
theorem c2_publish_deepcopy_isolation_witness :
    ∃ r, regGet (publish_if_improved w0c2 "1").registry "1" = some r
      ∧ (publish_if_improved w0c2 "1").heap[r]? =
          (publish_if_improved w0c2 "1").heap[(publish_if_improved w0c2 "1").bestAddr]?
      ∧ (publish_if_improved w0c2 "1").heap[(publish_if_improved w0c2 "1").bestAddr]?
          = some ⟨3⟩
      ∧ r ≠ (publish_if_improved w0c2 "1").bestAddr
      ∧ ∀ m2 : Model,
          ((publish_if_improved w0c2 "1").heap.set r
              m2)[(publish_if_improved w0c2 "1").bestAddr]? = some ⟨3⟩ :=
  c2_publish_deepcopy_isolation w0c2 "1" ⟨5⟩ ⟨3⟩ rfl rfl (by decide)

/- Claim C5: the coordinator's progress report. -/

instance : DecidableRel
    (fun (a b : String × Model) => a.2.fitness ≤ b.2.fitness) :=
  fun a b => inferInstanceAs (Decidable (a.2.fitness ≤ b.2.fitness))

instance : IsTotal (String × Model)
    (fun a b => a.2.fitness ≤ b.2.fitness) :=
  ⟨fun a b => le_total a.2.fitness b.2.fitness⟩

instance : IsTrans (String × Model)
    (fun a b => a.2.fitness ≤ b.2.fitness) :=
  ⟨fun _ _ _ h1 h2 => le_trans h1 h2⟩

/-- `print_best_solution_now` (core.py lines 220-250), reduced to its data
flow: snapshot the shared dictionary (`dict(shared_dict)`, here the association
list of per-worker bests), return with no report if the snapshot is empty
(`if not all_models_data: return`), otherwise sort the (key, model) pairs by
`x[1].get_fitness_func_value()` ascending — Python's `sorted` is a stable
ascending sort, realized here by stable insertion sort — and emit the ranked
list. `none` is the no-report early return. -/
def print_best_solution_now (shared_dict : List (String × Model)) :
    Option (List (String × Model)) :=
  if shared_dict.isEmpty then none
  else some (List.insertionSort
    (fun a b => a.2.fitness ≤ b.2.fitness) shared_dict)

/-- C5: the coordinator's progress report ranks the registry snapshot in
ascending fitness order (a permutation of the snapshot, pairwise sorted); on
the snapshot `{w1: 5.0, w2: 2.0, w3: 8.0}` the ranking is `[w2, w1, w3]`;
and on an empty snapshot the function returns with no report and no
exception. -/
theorem c5_ranking_ascending (l : List (String × Model)) (hne : l ≠ []) :
    print_best_solution_now [] = none
    ∧ print_best_solution_now [("w1", ⟨5⟩), ("w2", ⟨2⟩), ("w3", ⟨8⟩)] =
        some [("w2", ⟨2⟩), ("w1", ⟨5⟩), ("w3", ⟨8⟩)]
    ∧ ∃ ranked, print_best_solution_now l = some ranked
        ∧ ranked.Pairwise (fun a b => a.2.fitness ≤ b.2.fitness)
        ∧ ranked.Perm l := by
  refine ⟨rfl, by decide, ?_⟩
  refine ⟨List.insertionSort (fun a b => a.2.fitness ≤ b.2.fitness) l,
    ?_, ?_, ?_⟩
  · rw [print_best_solution_now, if_neg]
    simp [List.isEmpty_iff, hne]
  · exact List.sorted_insertionSort _ l
  · exact List.perm_insertionSort _ l

/-- Witness for C5 at a concrete nonempty snapshot, discharging the
nonemptiness hypothesis. -/
theorem c5_ranking_ascending_witness :
    print_best_solution_now [] = none
    ∧ print_best_solution_now [("w1", ⟨5⟩), ("w2", ⟨2⟩), ("w3", ⟨8⟩)] =
        some [("w2", ⟨2⟩), ("w1", ⟨5⟩), ("w3", ⟨8⟩)]
    ∧ ∃ ranked, print_best_solution_now [("a", ⟨1⟩)] = some ranked
        ∧ ranked.Pairwise (fun a b => a.2.fitness ≤ b.2.fitness)
        ∧ ranked.Perm [("a", ⟨1⟩)] :=
  c5_ranking_ascending [("a", ⟨1⟩)] (by decide)

/- Claim C7: worker failures reach the coordinator without the worker's id. -/

/-- The outcome of `run_genetic_algorithm` (core.py lines 184-208) as a
function of the GA run's outcome. The `try`/`except` that would re-raise an
uncaught exception as `RuntimeError('GA number ' + str(number) + ': ' +
str(e))` is commented out (lines 194, 207-208; the leftover `number = 'ID'` at
line 193 belonged to it), so an exception from `ga_instance.run` propagates
unchanged, carrying no worker id. -/
def run_genetic_algorithm_outcome (number : ℕ)
    (runResult : Except String GAState) : Except String (ℕ × Model) :=
  match runResult with
  | Except.error e => Except.error e
  | Except.ok s => run_genetic_algorithm_result number s

/-- What the orchestrator does with a non-timeout worker failure. -/
structure PoolOutcome where
  terminated : Bool
  reported : String
deriving DecidableEq, Repr

/-- `main`'s handler for a non-timeout exception from the pool (core.py lines
305-307): `pool.terminate()` then `support.error(str(e))` — the whole pool is
terminated and the exception's message is reported as the terminal error. -/
def main_on_worker_failure (e : String) : PoolOutcome :=
  { terminated := true, reported := e }

/-- C7 (code evaluated at the failing input): when worker number 3's GA run
raises an exception with message "boom", the orchestrator terminates the whole
pool and reports exactly "boom" — and the surfaced error is identical for every
worker id, so it does not identify the failing worker. -/
theorem c7_failure_loses_worker_id :
    (∀ n1 n2 : ℕ, ∀ e : String,
      run_genetic_algorithm_outcome n1 (Except.error e) =
        run_genetic_algorithm_outcome n2 (Except.error e))
    ∧ run_genetic_algorithm_outcome 3 (Except.error "boom") =
        Except.error "boom"
    ∧ main_on_worker_failure "boom" =
        { terminated := true, reported := "boom" } :=
  ⟨fun _ _ _ => rfl, rfl, rfl⟩

/- Claim C8: display precision derived from epsilon. -/

/-- Python's built-in `int()` applied to a finite float truncates toward zero;
a finite float value is a rational, and truncation of `num/den` (with positive
denominator) is T-division of the numerator by the denominator. -/
def pyInt (q : ℚ) : ℤ := Int.tdiv q.num q.den

/-- The display precision computed at genetic_algorithm.py line 57
(`self.ll_precision = 1 - int(math.log(self.params.epsilon, 10))`) and
core.py line 291 (`precision = 1 - int(math.log(params.epsilon, 10))`).
`logEps` stands for the value `math.log(epsilon, 10)` computed there. -/
def ll_precision (logEps : ℚ) : ℤ := 1 - pyInt logEps

/-- Modelled from the spec's words (the refinement target, spec §6): display
precision `1 - floor(log10(epsilon))`; the floor of `num/den` with positive
denominator is floor division of the numerator by the denominator. -/
def spec_display_precision (logEps : ℚ) : ℤ :=
  1 - Int.fdiv logEps.num logEps.den

/-- The concrete input of the C8 counterexample: `logEps = -1301/1000`, a
value of `math.log(epsilon, 10)` with epsilon ≈ 0.05, where `log10(epsilon)`
is negative and not an integer. -/
def logEps005 : ℚ := Rat.mk' (-1301) 1000 (by decide) (by decide)

/-- C8 counterexample: at `logEps = -1301/1000` the code computes precision 2
while the spec's floor formula gives 3; the same discrepancy holds for every
`logEps` strictly between -2 and -1. -/
theorem c8_trunc_vs_floor_counterexample :
    ll_precision logEps005 = 2
    ∧ spec_display_precision logEps005 = 3
    ∧ ll_precision logEps005 ≠ spec_display_precision logEps005 := by
  decide

/-- C8 amended: the display precision equals `1 - trunc(log10(epsilon))` with
truncation toward zero (Python `int()`), which coincides with the spec's
`1 - floor(log10(epsilon))` whenever `log10(epsilon)` is nonnegative or an
integer, but not when it is negative and fractional. -/
theorem c8_precision_trunc_eq_floor_when_nonneg_or_integral (logEps : ℚ)
    (h : 0 ≤ logEps ∨ logEps.den = 1) :
    ll_precision logEps = spec_display_precision logEps := by
  rw [ll_precision, spec_display_precision, pyInt]
  rcases h with h | h
  · have hnum : 0 ≤ logEps.num := Rat.num_nonneg.mpr h
    have hden : (0 : ℤ) ≤ (logEps.den : ℤ) := Int.ofNat_nonneg _
    rw [Int.fdiv_eq_tdiv hnum hden]
  · rw [h]
    norm_num

/-- Witness for C8's amended statement at `logEps = 1/2` (epsilon with a
nonnegative fractional log10): both formulas give the same precision. -/
theorem c8_precision_trunc_eq_floor_witness :
    (0 ≤ (1/2 : ℚ) ∨ ((1/2 : ℚ)).den = 1)
    ∧ ll_precision (1/2) = spec_display_precision (1/2) :=
  ⟨Or.inl (by norm_num),
   c8_precision_trunc_eq_floor_when_nonneg_or_integral (1/2)
     (Or.inl (by norm_num))⟩

/- Claim C6: fixing and unfixing variables on a demographic model. -/

/-- Modelled from the spec: a model variable (spec §3 "Variable"), identified
by its name and domain kind; the class lives in gadma/demographic_model.py,
which is not under src/ (only src/tests exercises it). -/
structure Var where
  name : String
  kind : String
deriving DecidableEq, Repr

/-- Modelled from the spec: the demographic model's fixing state (spec §3
"Demographic model" and §9's overlay design note) — the ordered variable set
and an explicit overlay mapping fixed variables to their held values
(`varlist` embeds the model attribute the spec calls `variables`, a reserved
word here). The class `Demographic_model` is not under src/;
src/tests/test_models.py lines 161-164 exercise the error behavior embedded
here. -/
structure DemModel where
  varlist : List Var
  fixedOverlay : List (Var × ℚ)
deriving DecidableEq, Repr

/-- Modelled from the spec: `fix_variable(var, value)` marks `var` as held at
`value`; it "fails with an error if `var` is not a member of the model's
variable set" (spec §3), leaving the model unchanged. The pair returned is
(model state after the call, raised error if any). -/
def fix_variable (dm : DemModel) (v : Var) (val : ℚ) :
    DemModel × Option String :=
  if v ∈ dm.varlist then
    ({ dm with fixedOverlay :=
        (v, val) :: dm.fixedOverlay.filter (fun p => p.1 != v) }, none)
  else (dm, some "ValueError")

/-- Modelled from the spec: `unfix_variable(var)` removes `var` from the fixed
overlay; "unfixing an unfixed variable fails with an error" (spec §3), leaving
the model unchanged. -/
def unfix_variable (dm : DemModel) (v : Var) : DemModel × Option String :=
  if (dm.fixedOverlay.find? (fun p => p.1 == v)).isSome then
    ({ dm with fixedOverlay :=
        dm.fixedOverlay.filter (fun p => p.1 != v) }, none)
  else (dm, some "ValueError")

/-- C6: `fix_variable` raises ValueError whenever the variable is not in the
model's variable set, `unfix_variable` raises ValueError whenever the variable
is not currently fixed — whether or not it is a member of the variable set —
and in both error cases the model's state is unchanged. -/
theorem c6_fix_unfix_config_errors (dm : DemModel) (v : Var) (val : ℚ) :
    (v ∉ dm.varlist →
      fix_variable dm v val = (dm, some "ValueError"))
    ∧ (v ∉ dm.fixedOverlay.map Prod.fst →
      unfix_variable dm v = (dm, some "ValueError")) := by
  constructor
  · intro hv
    rw [fix_variable, if_neg hv]
  · intro hf
    have hnone : dm.fixedOverlay.find? (fun p => p.1 == v) = none := by
      rw [List.find?_eq_none]
      intro p hp hpv
      exact hf (List.mem_map.mpr ⟨p, hp, by simpa using hpv⟩)
    rw [unfix_variable, hnone]
    rfl

/-- The concrete model of src/tests/test_models.py's `test_fix_vars` failure
check, reduced to variable membership: the model's variables, none fixed. -/
def dmWitness : DemModel :=
  { varlist := [⟨"nu1F", "PopulationSize"⟩, ⟨"Dyn", "Dynamic"⟩],
    fixedOverlay := [] }

/-- Witness for C6: fixing `PopulationSizeVariable('nu3')`, which is not a
member of the model's variable set, raises ValueError (src/tests/test_models.py
lines 161-164), and unfixing `Dyn`, which is a member of the variable set but
is not currently fixed, also raises ValueError. -/
theorem c6_fix_unfix_config_errors_witness :
    fix_variable dmWitness ⟨"nu3", "PopulationSize"⟩ 3 =
      (dmWitness, some "ValueError")
    ∧ unfix_variable dmWitness ⟨"Dyn", "Dynamic"⟩ =
      (dmWitness, some "ValueError") :=
  ⟨(c6_fix_unfix_config_errors dmWitness ⟨"nu3", "PopulationSize"⟩ 3).1
      (by decide),
   (c6_fix_unfix_config_errors dmWitness ⟨"Dyn", "Dynamic"⟩ 3).2
      (by decide)⟩
